import Mathlib

/-!
Verification of the monopole structural-analysis engine (file `15m (2).py`).

The Python engine computes over IEEE floats; the embedding models that
arithmetic exactly over the reals.  Functions that can raise a Python
exception (`IndexError` on an empty sections list, `ZeroDivisionError` on a
zero divisor) return `Except AnalysisError _`; the error inductive also
carries the two validation errors named by the specification
(`invalidSectionGeometry`, `invalidFoundationParams`) so that the spec's
error-handling sentences can be stated against the code — the translated
bodies of `calculate_dead_load` and `calculate_foundation_capacity` contain
no validation and never produce them, exactly as in the source.
-/

namespace TeleTwin

noncomputable section

/-- Physical constant `self.steel_density` (kg/m³). -/
def steel_density : ℝ := 7850

/-- Physical constant `self.gravity` (m/s²). -/
def gravity : ℝ := 9.81

/-- One pole section record (`sections` list entries, dimensions in mm). -/
structure Section where
  height : ℝ
  diameter_top : ℝ
  diameter_bottom : ℝ
  thickness : ℝ

/-- One antenna / RRU / other-equipment record on a crown platform. -/
structure Equipment where
  weight_kg : ℝ
  wind_area_m2 : ℝ
  cf : ℝ

/-- One crown-platform record (`crown_platforms` list entries). -/
structure CrownPlatform where
  height : ℝ
  platform_weight_kg : ℝ
  platform_wind_area_m2 : ℝ
  cf : ℝ
  antennas : List Equipment
  rrus : List Equipment
  other_equipment : List Equipment

/-- The `foundation_params` record (dimensions in mm, grade in MPa). -/
structure FoundationParams where
  base_plate_diameter : ℝ
  bolt_circle_diameter : ℝ
  number_of_bolts : ℝ
  bolt_diameter : ℝ
  bolt_grade : ℝ
  concrete_strength : ℝ
  anchor_length : ℝ

/-- Failure modes of a single analysis call.  `indexError` and
`zeroDivision` are the Python exceptions the source can actually raise;
`invalidSectionGeometry` and `invalidFoundationParams` are the validation
errors named by the specification (never produced by the code). -/
inductive AnalysisError where
  | invalidSectionGeometry
  | invalidFoundationParams
  | indexError
  | zeroDivision
deriving DecidableEq

/-- Per-section steel weight (kg): the body of the section loop of
`calculate_dead_load`. -/
def sectionWeight (s : Section) : ℝ :=
  let height_m := s.height / 1000
  let d_avg_m := ((s.diameter_top + s.diameter_bottom) / 2) / 1000
  let thickness_m := s.thickness / 1000
  let outer_volume := Real.pi * (d_avg_m / 2) ^ 2 * height_m
  let inner_volume := Real.pi * ((d_avg_m / 2) - thickness_m) ^ 2 * height_m
  (outer_volume - inner_volume) * steel_density

/-- Accumulated pole weight (the section loop of `calculate_dead_load`). -/
def poleWeight (sections : List Section) : ℝ :=
  (sections.map sectionWeight).sum

/-- Per-platform crown weight (platform self-weight plus all equipment). -/
def platformWeight (p : CrownPlatform) : ℝ :=
  p.platform_weight_kg
    + (p.antennas.map (fun a => a.weight_kg)).sum
    + (p.rrus.map (fun r => r.weight_kg)).sum
    + (p.other_equipment.map (fun eq => eq.weight_kg)).sum

/-- Accumulated crown weight (the platform loop of `calculate_dead_load`). -/
def crownWeight (crown_platforms : List CrownPlatform) : ℝ :=
  (crown_platforms.map platformWeight).sum

/-- `calculate_dead_load(sections, crown_platforms)`.  The source performs
no validation and cannot raise: the result is unconditionally `ok`. -/
def calculate_dead_load (sections : List Section)
    (crown_platforms : List CrownPlatform) : Except AnalysisError (ℝ × ℝ) :=
  Except.ok (poleWeight sections, crownWeight crown_platforms)

/-- The per-exposure entry of the `exposure_params` table. -/
structure ExposureParams where
  base : ℝ
  zg : ℝ
  alpha : ℝ
  breakpoints : List (ℝ × ℝ)

/-- Exposure-category C entry of `exposure_params`. -/
def exposureC : ExposureParams :=
  ⟨0.85, 274.32, 9.5, [(4.6, 0.85), (6.1, 0.90), (9.1, 0.98), (12.2, 1.04), (15.2, 1.09)]⟩

/-- Exposure-category B entry of `exposure_params`. -/
def exposureB : ExposureParams :=
  ⟨0.57, 365.76, 7.0, [(9.1, 0.57), (12.2, 0.62), (15.2, 0.66)]⟩

/-- Exposure-category D entry of `exposure_params`. -/
def exposureD : ExposureParams :=
  ⟨1.03, 213.36, 11.5, [(4.6, 1.03), (6.1, 1.08), (9.1, 1.16)]⟩

/-- `exposure_params.get(exposure, exposure_params['C'])`. -/
def exposureParams (exposure : String) : ExposureParams :=
  if exposure = "C" then exposureC
  else if exposure = "B" then exposureB
  else if exposure = "D" then exposureD
  else exposureC

/-- The breakpoint scan loop of `calculate_kz`: the first breakpoint whose
threshold strictly exceeds the height supplies its Kz value. -/
def scanBreakpoints : List (ℝ × ℝ) → ℝ → Option ℝ
  | [], _ => none
  | (height_limit, kz_value) :: rest, height_m =>
    if height_m < height_limit then some kz_value
    else scanBreakpoints rest height_m

/-- `calculate_kz(height_m, exposure)`: breakpoint scan, then the power-law
fallback `base * (height_m / breakpoints[0][0]) ** (2 / alpha)`. -/
def calculate_kz (height_m : ℝ) (exposure : String) : ℝ :=
  let params := exposureParams exposure
  (scanBreakpoints params.breakpoints height_m).getD
    (params.base * (height_m / (params.breakpoints.headD (0, 0)).1)
      ^ ((2 : ℝ) / params.alpha))

/-- The pole-section loop of `calculate_wind_load`.  The second argument is
the running `height_cumulative`; the result is the pair of this loop's
contributions to `(total_wind_force, wind_moment)`. -/
def sectionWindLoads (wind_speed_ms : ℝ) (exposure : String) :
    List Section → ℝ → ℝ × ℝ
  | [], _ => (0, 0)
  | s :: rest, height_cumulative =>
    let h := s.height / 1000
    let d_avg := ((s.diameter_top + s.diameter_bottom) / 2) / 1000
    let projected_area := d_avg * h
    let section_center_height := height_cumulative + h / 2
    let kz := calculate_kz section_center_height exposure
    let qz := 0.613 * kz * 1.0 * 0.95 * wind_speed_ms ^ 2
    let wind_force := qz * 0.5 * projected_area
    let tail := sectionWindLoads wind_speed_ms exposure rest (height_cumulative + h)
    (wind_force + tail.1, wind_force * section_center_height + tail.2)

/-- The crown-platform loop of `calculate_wind_load`: antennas (default
cf 1.2), RRUs (default cf 1.0) and, when `platform_wind_area_m2 > 0`, the
platform structure itself; `other_equipment` takes no wind load. -/
def platformWindLoads (wind_speed_ms : ℝ) (exposure : String) :
    List CrownPlatform → ℝ × ℝ
  | [] => (0, 0)
  | p :: rest =>
    let platform_height := p.height
    let kz := calculate_kz platform_height exposure
    let qz := 0.613 * kz * 1.0 * 0.95 * wind_speed_ms ^ 2
    let antenna_force := (p.antennas.map (fun a => qz * a.cf * a.wind_area_m2)).sum
    let rru_force := (p.rrus.map (fun r => qz * r.cf * r.wind_area_m2)).sum
    let platform_force :=
      if 0 < p.platform_wind_area_m2 then qz * p.cf * p.platform_wind_area_m2 else 0
    let force := antenna_force + rru_force + platform_force
    let tail := platformWindLoads wind_speed_ms exposure rest
    (force + tail.1, force * platform_height + tail.2)

/-- `calculate_wind_load(sections, wind_speed_ms, exposure, crown_platforms)`
returning `(total_wind_force, wind_moment)`. -/
def calculate_wind_load (sections : List Section) (wind_speed_ms : ℝ)
    (exposure : String) (crown_platforms : List CrownPlatform) : ℝ × ℝ :=
  let sec := sectionWindLoads wind_speed_ms exposure sections 0
  let plat := platformWindLoads wind_speed_ms exposure crown_platforms
  (sec.1 + plat.1, sec.2 + plat.2)

/-- The `yield_strengths` table with its `.get(steel_grade, 355)` default. -/
def yieldStrength (steel_grade : String) : ℝ :=
  if steel_grade = "A36" then 248
  else if steel_grade = "A572-50" then 345
  else if steel_grade = "A992" then 345
  else if steel_grade = "S355" then 355
  else 355

/-- `calculate_moment_capacity(diameter_mm, thickness_mm, steel_grade)`:
tubular section modulus and bending capacity.  Dividing by a zero outer
diameter raises `ZeroDivisionError` in the source. -/
def calculate_moment_capacity (diameter_mm thickness_mm : ℝ)
    (steel_grade : String) : Except AnalysisError (ℝ × ℝ) :=
  let fy_mpa := yieldStrength steel_grade
  let d_outer := diameter_mm / 1000
  let thickness := thickness_mm / 1000
  let d_inner := d_outer - 2 * thickness
  if d_outer = 0 then Except.error AnalysisError.zeroDivision
  else
    let section_modulus_m3 := (Real.pi / 32) * (d_outer ^ 4 - d_inner ^ 4) / d_outer
    Except.ok (section_modulus_m3 * fy_mpa * 1e6, section_modulus_m3)

/-- `calculate_foundation_capacity(foundation_params)` returning
`(allowable_foundation_moment, bolt_tensile_capacity)`.  The source performs
no validation and cannot raise: the result is unconditionally `ok`. -/
def calculate_foundation_capacity (foundation_params : FoundationParams) :
    Except AnalysisError (ℝ × ℝ) :=
  let bolt_circle_dia := foundation_params.bolt_circle_diameter / 1000
  let num_bolts := foundation_params.number_of_bolts
  let bolt_diameter := foundation_params.bolt_diameter / 1000
  let bolt_area := Real.pi * bolt_diameter ^ 2 / 4
  let bolt_tensile_capacity := bolt_area * foundation_params.bolt_grade * 1e6 * 0.75
  let lever_arm := bolt_circle_dia / 2
  let bolts_in_tension := num_bolts / 2
  let total_bolt_capacity := bolts_in_tension * bolt_tensile_capacity
  let foundation_moment_capacity := total_bolt_capacity * lever_arm
  Except.ok (foundation_moment_capacity / 2.0, bolt_tensile_capacity)

/-- The `combinations` dict of `calculate_load_combinations`, in insertion
order. -/
def loadCombinationTable (wind_moment_nm applied_moment_nm : ℝ) :
    List (String × ℝ) :=
  [("LRFD_1.4D", 0),
   ("LRFD_1.2D+1.6W", applied_moment_nm + 1.6 * wind_moment_nm),
   ("LRFD_1.2D+1.0W", applied_moment_nm + 1.0 * wind_moment_nm),
   ("LRFD_0.9D+1.6W", applied_moment_nm + 1.6 * wind_moment_nm),
   ("ASD_D", 0),
   ("ASD_D+W", applied_moment_nm + wind_moment_nm),
   ("ASD_D+0.75W", applied_moment_nm + 0.75 * wind_moment_nm),
   ("ASD_0.6D+0.6W", applied_moment_nm + 0.6 * wind_moment_nm)]

/-- CPython `max` over a nonempty list of values given as head and tail. -/
def pyMaxVal (a : ℝ) (l : List ℝ) : ℝ :=
  l.foldl max a

/-- CPython `max(items, key=lambda x: x[1])` over a nonempty list given as
head and tail: a later item replaces the current best only when its value is
strictly greater, so the first maximal item wins. -/
def pyArgmax (p : String × ℝ) (l : List (String × ℝ)) : String × ℝ :=
  l.foldl (fun best q => if best.2 < q.2 then q else best) p

/-- `calculate_load_combinations(wind_moment_nm, applied_moment_nm,
governing_moment)`.  A zero `governing_moment` raises `ZeroDivisionError`
in the source when the utilization dict is built. -/
def calculate_load_combinations (wind_moment_nm applied_moment_nm
    governing_moment : ℝ) :
    Except AnalysisError (List (String × ℝ) × List (String × ℝ) × String × ℝ) :=
  if governing_moment = 0 then Except.error AnalysisError.zeroDivision
  else
    let combinations := loadCombinationTable wind_moment_nm applied_moment_nm
    let utilizations := combinations.map (fun p => (p.1, p.2 / governing_moment))
    let u0 := utilizations.headD ("", 0)
    let urest := utilizations.tail
    let max_utilization := pyMaxVal u0.2 (urest.map (fun p => p.2))
    let governing_combo := (pyArgmax u0 urest).1
    Except.ok (combinations, utilizations, governing_combo, max_utilization)

/-- The status if-chain at the end of `analyze_monopole`. -/
def statusOf (max_utilization : ℝ) : String :=
  if 1.0 < max_utilization then "FAIL - Structure is overstressed!"
  else if 0.9 < max_utilization then "CRITICAL - Very high utilization"
  else if 0.8 < max_utilization then "WARNING - High utilization"
  else if 0.6 < max_utilization then "GOOD - Adequately designed"
  else "CONSERVATIVE - Significant reserve capacity"

/-- The result dict of `analyze_monopole`. -/
structure AnalysisResult where
  pole_weight_kg : ℝ
  crown_weight_kg : ℝ
  total_dead_load_kg : ℝ
  wind_force_n : ℝ
  wind_moment_nm : ℝ
  governing_element : String
  governing_combo : String
  max_utilization : ℝ
  max_load_capacity_kg : ℝ
  remaining_capacity_kg : ℝ
  status : String
  all_combinations : List (String × ℝ)
  all_utilizations : List (String × ℝ)

/-- `analyze_monopole(sections, applied_load_kg, wind_speed_ms, exposure,
steel_grade, foundation_params, crown_platforms)`: the full pipeline.
`sections[0]` on an empty list raises `IndexError` in the source. -/
def analyze_monopole (sections : List Section) (applied_load_kg wind_speed_ms : ℝ)
    (exposure steel_grade : String) (foundation_params : Option FoundationParams)
    (crown_platforms : List CrownPlatform) : Except AnalysisError AnalysisResult :=
  match calculate_dead_load sections crown_platforms with
  | Except.error e => Except.error e
  | Except.ok (pole_weight_kg, crown_weight_kg) =>
    let total_dead_load_kg := pole_weight_kg + crown_weight_kg
    let total_height_m := (sections.map (fun s => s.height)).sum / 1000
    match sections with
    | [] => Except.error AnalysisError.indexError
    | bottom_section :: _ =>
      match calculate_moment_capacity bottom_section.diameter_bottom
          bottom_section.thickness steel_grade with
      | Except.error e => Except.error e
      | Except.ok (pole_moment_capacity, _) =>
        let allowable_pole_moment := pole_moment_capacity / 2.0
        let after := fun (governing_moment : ℝ) (governing_element : String) =>
          let wind := if 0 < wind_speed_ms then
              calculate_wind_load sections wind_speed_ms exposure crown_platforms
            else (0, 0)
          let applied_moment := applied_load_kg * gravity * total_height_m
          match calculate_load_combinations wind.2 applied_moment governing_moment with
          | Except.error e => Except.error e
          | Except.ok (combinations, utilizations, governing_combo, max_utilization) =>
            let combo_moment :=
              ((combinations.find? (fun p => p.1 == governing_combo)).getD ("", 0)).2
            let remaining_moment := governing_moment - combo_moment
            let remaining_load_capacity :=
              if 0 < total_height_m then remaining_moment / (gravity * total_height_m) else 0
            let max_load_capacity :=
              if 0 < total_height_m then governing_moment / (gravity * total_height_m) else 0
            Except.ok
              { pole_weight_kg := pole_weight_kg
                crown_weight_kg := crown_weight_kg
                total_dead_load_kg := total_dead_load_kg
                wind_force_n := wind.1
                wind_moment_nm := wind.2
                governing_element := governing_element
                governing_combo := governing_combo
                max_utilization := max_utilization
                max_load_capacity_kg := max_load_capacity
                remaining_capacity_kg := remaining_load_capacity
                status := statusOf max_utilization
                all_combinations := combinations
                all_utilizations := utilizations }
        match foundation_params with
        | none => after allowable_pole_moment "POLE"
        | some fp =>
          match calculate_foundation_capacity fp with
          | Except.error e => Except.error e
          | Except.ok (allowable_foundation_moment, _) =>
            after (min allowable_pole_moment allowable_foundation_moment)
              (if allowable_foundation_moment < allowable_pole_moment
               then "FOUNDATION" else "POLE")

/-- The single pole section of the repository's 15 m tower configuration. -/
def mainSection : Section :=
  { height := 15000, diameter_top := 250, diameter_bottom := 628, thickness := 5 }

/-- The repository's foundation configuration (16 bolts). -/
def foundationParameters : FoundationParams :=
  { base_plate_diameter := 750, bolt_circle_diameter := 750, number_of_bolts := 16
    bolt_diameter := 22, bolt_grade := 420, concrete_strength := 25
    anchor_length := 900 }

/-- The repository's foundation configuration reduced to 4 bolts. -/
def foundationParameters4 : FoundationParams :=
  { base_plate_diameter := 750, bolt_circle_diameter := 750, number_of_bolts := 4
    bolt_diameter := 22, bolt_grade := 420, concrete_strength := 25
    anchor_length := 900 }

/-- A section whose wall thickness leaves a zero inner bore
(`d_avg / 2 = 50 mm = thickness`). -/
def degenerateSection : Section :=
  { height := 1000, diameter_top := 100, diameter_bottom := 100, thickness := 50 }

/-- Foundation parameters with a non-positive bolt count. -/
def zeroBoltParams : FoundationParams :=
  { base_plate_diameter := 750, bolt_circle_diameter := 750, number_of_bolts := 0
    bolt_diameter := 22, bolt_grade := 420, concrete_strength := 25
    anchor_length := 900 }

end

/-! ## Helper lemmas -/

theorem le_pyMaxVal (a : ℝ) (l : List ℝ) : a ≤ pyMaxVal a l := by
  induction l generalizing a with
  | nil => exact le_refl a
  | cons x l ih =>
    calc a ≤ max a x := le_max_left a x
    _ ≤ pyMaxVal (max a x) l := ih (max a x)
    _ = pyMaxVal a (x :: l) := rfl

theorem pyMaxVal_le_of_mem {x : ℝ} {l : List ℝ} (a : ℝ) (hx : x ∈ l) :
    x ≤ pyMaxVal a l := by
  induction l generalizing a with
  | nil => cases hx
  | cons y l ih =>
    rcases List.mem_cons.mp hx with h | h
    · subst h
      calc x ≤ max a x := le_max_right a x
      _ ≤ pyMaxVal (max a x) l := le_pyMaxVal _ l
    · exact ih (max a y) h

theorem pyMaxVal_mem (a : ℝ) (l : List ℝ) :
    pyMaxVal a l = a ∨ pyMaxVal a l ∈ l := by
  induction l generalizing a with
  | nil => exact Or.inl rfl
  | cons x l ih =>
    have : pyMaxVal a (x :: l) = pyMaxVal (max a x) l := rfl
    rw [this]
    rcases ih (max a x) with h | h
    · rcases max_choice a x with hm | hm
      · exact Or.inl (h.trans hm)
      · exact Or.inr (by rw [h, hm]; exact List.mem_cons_self x l)
    · exact Or.inr (List.mem_cons_of_mem x h)

theorem pyArgmax_snd (p : String × ℝ) (l : List (String × ℝ)) :
    (pyArgmax p l).2 = pyMaxVal p.2 (l.map (fun q => q.2)) := by
  induction l generalizing p with
  | nil => rfl
  | cons q l ih =>
    have h1 : pyArgmax p (q :: l) = pyArgmax (if p.2 < q.2 then q else p) l := rfl
    have h2 : (if p.2 < q.2 then q else p).2 = max p.2 q.2 := by
      split_ifs with h
      · exact (max_eq_right h.le).symm
      · exact (max_eq_left (le_of_not_lt h)).symm
    rw [h1, ih, h2]
    rfl

theorem find_first_max (p : String × ℝ) (l : List (String × ℝ)) :
    (p :: l).find? (fun x => decide (x.2 = pyMaxVal p.2 (l.map (fun q => q.2))))
      = some (pyArgmax p l) := by
  induction l generalizing p with
  | nil =>
    simp [pyMaxVal, pyArgmax, List.find?]
  | cons q l ih =>
    have hM : pyMaxVal p.2 ((q :: l).map (fun x => x.2))
        = pyMaxVal (if p.2 < q.2 then q else p).2 (l.map (fun x => x.2)) := by
      have h2 : (if p.2 < q.2 then q else p).2 = max p.2 q.2 := by
        split_ifs with h
        · exact (max_eq_right h.le).symm
        · exact (max_eq_left (le_of_not_lt h)).symm
      rw [h2]
      rfl
    have hA : pyArgmax p (q :: l) = pyArgmax (if p.2 < q.2 then q else p) l := rfl
    have hMub : (if p.2 < q.2 then q else p).2
        ≤ pyMaxVal (if p.2 < q.2 then q else p).2 (l.map (fun x => x.2)) :=
      le_pyMaxVal _ _
    by_cases hpq : p.2 < q.2
    · rw [hA, hM]
      simp only [if_pos hpq] at hMub ⊢
      have hpne : p.2 ≠ pyMaxVal q.2 (l.map (fun x => x.2)) :=
        ne_of_lt (lt_of_lt_of_le hpq hMub)
      rw [List.find?_cons_of_neg _ (by simpa using hpne)]
      exact ih q
    · rw [hA, hM]
      simp only [if_neg hpq] at hMub ⊢
      have hq : q.2 ≤ p.2 := le_of_not_lt hpq
      by_cases hp : p.2 = pyMaxVal p.2 (l.map (fun x => x.2))
      · have hfind := ih p
        rw [List.find?_cons_of_pos _ (by simpa using hp)] at hfind ⊢
        exact hfind
      · have hfind := ih p
        rw [List.find?_cons_of_neg _ (by simpa using hp)] at hfind
        have hqne : q.2 ≠ pyMaxVal p.2 (l.map (fun x => x.2)) := by
          intro he
          exact hp (le_antisymm (le_pyMaxVal _ _)
            (by rw [← he] at *; exact hq))
        rw [List.find?_cons_of_neg _ (by simpa using hp),
          List.find?_cons_of_neg _ (by simpa using hqne)]
        exact hfind

theorem sum_map_eq_zero {α : Type} (f : α → ℝ) (l : List α) (h : ∀ a, f a = 0) :
    (l.map f).sum = 0 := by
  induction l with
  | nil => rfl
  | cons a l ih => simp [h, ih]

theorem sum_map_eq_four {α : Type} (f g : α → ℝ) (l : List α)
    (h : ∀ a, f a = 4 * g a) : (l.map f).sum = 4 * (l.map g).sum := by
  induction l with
  | nil => simp
  | cons a l ih =>
    simp only [List.map_cons, List.sum_cons, h, ih]
    ring

theorem sectionWindLoads_zero (exposure : String) (l : List Section) (hc : ℝ) :
    sectionWindLoads 0 exposure l hc = (0, 0) := by
  induction l generalizing hc with
  | nil => rfl
  | cons s l ih =>
    simp only [sectionWindLoads, ih]
    rw [Prod.mk.injEq]
    constructor <;> ring

theorem platformWindLoads_zero (exposure : String) (l : List CrownPlatform) :
    platformWindLoads 0 exposure l = (0, 0) := by
  induction l with
  | nil => rfl
  | cons p l ih =>
    simp only [platformWindLoads, ih]
    rw [sum_map_eq_zero _ p.antennas (fun a => by ring),
      sum_map_eq_zero _ p.rrus (fun a => by ring), Prod.mk.injEq]
    constructor <;> (split_ifs <;> ring)

theorem sectionWindLoads_double (v : ℝ) (exposure : String) (l : List Section)
    (hc : ℝ) :
    sectionWindLoads (2 * v) exposure l hc
      = (4 * (sectionWindLoads v exposure l hc).1,
         4 * (sectionWindLoads v exposure l hc).2) := by
  induction l generalizing hc with
  | nil => simp [sectionWindLoads]
  | cons s l ih =>
    simp only [sectionWindLoads, ih]
    rw [Prod.mk.injEq]
    constructor <;> ring

theorem platformWindLoads_double (v : ℝ) (exposure : String)
    (l : List CrownPlatform) :
    platformWindLoads (2 * v) exposure l
      = (4 * (platformWindLoads v exposure l).1,
         4 * (platformWindLoads v exposure l).2) := by
  induction l with
  | nil => simp [platformWindLoads]
  | cons p l ih =>
    simp only [platformWindLoads, ih]
    rw [sum_map_eq_four
        (fun a => 0.613 * calculate_kz p.height exposure * 1.0 * 0.95 * (2 * v) ^ 2
          * a.cf * a.wind_area_m2)
        (fun a => 0.613 * calculate_kz p.height exposure * 1.0 * 0.95 * v ^ 2
          * a.cf * a.wind_area_m2) p.antennas (fun a => by ring),
      sum_map_eq_four
        (fun a => 0.613 * calculate_kz p.height exposure * 1.0 * 0.95 * (2 * v) ^ 2
          * a.cf * a.wind_area_m2)
        (fun a => 0.613 * calculate_kz p.height exposure * 1.0 * 0.95 * v ^ 2
          * a.cf * a.wind_area_m2) p.rrus (fun a => by ring), Prod.mk.injEq]
    constructor <;> (split_ifs <;> ring)

theorem pyMaxVal_mem_cons (a : ℝ) (l : List ℝ) : pyMaxVal a l ∈ a :: l := by
  rcases pyMaxVal_mem a l with h | h
  · rw [h]; exact List.mem_cons_self a l
  · exact List.mem_cons_of_mem a h

theorem pyMaxVal_ub {x a : ℝ} {l : List ℝ} (hx : x ∈ a :: l) :
    x ≤ pyMaxVal a l := by
  rcases List.mem_cons.mp hx with h | h
  · rw [h]; exact le_pyMaxVal a l
  · exact pyMaxVal_le_of_mem a h

theorem find_argmax_pack (p : String × ℝ) (l : List (String × ℝ)) :
    (p :: l).find? (fun x => decide (x.2 = pyMaxVal p.2 (l.map (fun q => q.2))))
      = some ((pyArgmax p l).1, pyMaxVal p.2 (l.map (fun q => q.2))) := by
  rw [find_first_max, ← pyArgmax_snd p l]

theorem scanBreakpoints_eq_find (l : List (ℝ × ℝ)) (h : ℝ) :
    scanBreakpoints l h
      = (l.find? (fun bp => decide (h < bp.1))).map (fun bp => bp.2) := by
  induction l with
  | nil => rfl
  | cons a t ih =>
    obtain ⟨limit, kz⟩ := a
    by_cases hc : h < limit
    · rw [List.find?_cons_of_pos _ (by simpa using hc)]
      simp only [scanBreakpoints, if_pos hc, Option.map_some']
    · rw [List.find?_cons_of_neg _ (by simpa using hc)]
      simp only [scanBreakpoints, if_neg hc, ih]

theorem calculate_kz_C (h : ℝ) : calculate_kz h "C" =
    if h < 4.6 then 0.85 else if h < 6.1 then 0.90 else if h < 9.1 then 0.98
    else if h < 12.2 then 1.04 else if h < 15.2 then 1.09
    else 0.85 * (h / 4.6) ^ ((2 : ℝ) / 9.5) := by
  simp only [calculate_kz, exposureParams, exposureC, scanBreakpoints,
    List.headD_cons, if_pos]
  split_ifs <;> simp

theorem powC_mono {h1 h2 : ℝ} (h0 : 0 ≤ h1) (h12 : h1 ≤ h2) :
    0.85 * (h1 / 4.6) ^ ((2 : ℝ) / 9.5)
      ≤ 0.85 * (h2 / 4.6) ^ ((2 : ℝ) / 9.5) := by
  have hd : h1 / 4.6 ≤ h2 / 4.6 := by gcongr
  have := Real.rpow_le_rpow (div_nonneg h0 (by norm_num)) hd
    (by norm_num : (0:ℝ) ≤ 2 / 9.5)
  linarith

theorem powC_at_boundary : (1.09 : ℝ) ≤ 0.85 * (15.2 / 4.6) ^ ((2 : ℝ) / 9.5) := by
  have hx : ((15.2 : ℝ) / 4.6) = 76 / 23 := by norm_num
  have he : ((2 : ℝ) / 9.5) = 4 / 19 := by norm_num
  rw [hx, he]
  have hb : (0 : ℝ) ≤ 76 / 23 := by norm_num
  have ht : (0 : ℝ) < ((76 : ℝ) / 23) ^ ((4 : ℝ) / 19) :=
    Real.rpow_pos_of_pos (by norm_num) _
  have hpow : (((76 : ℝ) / 23) ^ ((4 : ℝ) / 19)) ^ (19 : ℕ)
      = ((76 : ℝ) / 23) ^ (4 : ℕ) := by
    rw [← Real.rpow_natCast (((76 : ℝ) / 23) ^ ((4 : ℝ) / 19)) 19,
      ← Real.rpow_mul hb,
      show ((4 : ℝ) / 19 * ((19 : ℕ) : ℝ)) = ((4 : ℕ) : ℝ) by push_cast; norm_num,
      Real.rpow_natCast]
  have hkey : ((109 : ℝ) / 85) ≤ ((76 : ℝ) / 23) ^ ((4 : ℝ) / 19) := by
    apply le_of_pow_le_pow_left (n := 19) (by norm_num) ht.le
    rw [hpow]
    norm_num
  linarith

theorem powC_lb {h : ℝ} (hh : 15.2 ≤ h) :
    (1.09 : ℝ) ≤ 0.85 * (h / 4.6) ^ ((2 : ℝ) / 9.5) :=
  powC_at_boundary.trans (powC_mono (by norm_num) hh)

theorem analyze_status {sections : List Section} {applied v : ℝ}
    {exposure grade : String} {fp : Option FoundationParams}
    {ps : List CrownPlatform} {r : AnalysisResult}
    (h : analyze_monopole sections applied v exposure grade fp ps
      = Except.ok r) :
    r.status = statusOf r.max_utilization := by
  rcases sections with _ | ⟨b, rest⟩
  · exact Except.noConfusion h
  · simp only [analyze_monopole, calculate_dead_load, calculate_moment_capacity,
      calculate_foundation_capacity, calculate_load_combinations] at h
    repeat' split at h
    all_goals
      first
        | exact Except.noConfusion h
        | (injection h with h2; subst h2; rfl)

theorem analyze_zero_wind_status (b : Section) (exposure grade : String)
    (hd : b.diameter_bottom / 1000 ≠ 0)
    (hg : (Real.pi / 32) * ((b.diameter_bottom / 1000) ^ 4
        - (b.diameter_bottom / 1000 - 2 * (b.thickness / 1000)) ^ 4)
        / (b.diameter_bottom / 1000) * yieldStrength grade * 1e6 / 2.0 ≠ 0) :
    (analyze_monopole [b] 0 0 exposure grade none []).map
      (fun r => (r.status, r.max_utilization))
      = Except.ok ("CONSERVATIVE - Significant reserve capacity", 0) := by
  simp only [analyze_monopole, calculate_dead_load, calculate_moment_capacity,
    calculate_load_combinations, loadCombinationTable, if_neg hd, if_neg hg,
    lt_self_iff_false, if_false, zero_mul, mul_zero, add_zero, zero_add,
    zero_div, List.map_cons, List.map_nil, List.headD_cons, List.tail_cons]
  norm_num [pyMaxVal, pyArgmax, statusOf, Except.map]

theorem analyze_628_foundation (s : Section) (applied v : ℝ)
    (exposure : String) (fp : FoundationParams) (ps : List CrownPlatform)
    (hd : s.diameter_bottom = 628) (ht : s.thickness = 5)
    (hbcd : fp.bolt_circle_diameter = 750) (hbd : fp.bolt_diameter = 22)
    (hbg : fp.bolt_grade = 420)
    (hn : fp.number_of_bolts = 16 ∨ fp.number_of_bolts = 4) :
    (analyze_monopole [s] applied v exposure "S355" (some fp) ps).map
      (fun r => r.governing_element) = Except.ok "FOUNDATION" := by
  have hne : ((628 : ℝ) / 1000) ≠ 0 := by norm_num
  have hfy : yieldStrength "S355" = 355 := by simp [yieldStrength]
  have hap : (0 : ℝ) < Real.pi / 32 * (((628 : ℝ) / 1000) ^ 4
      - ((628 : ℝ) / 1000 - 2 * ((5 : ℝ) / 1000)) ^ 4) / ((628 : ℝ) / 1000)
      * 355 * 1e6 / 2.0 := by nlinarith [Real.pi_pos]
  rcases hn with hn | hn
  · have hlt : (16 : ℝ) / 2
        * (Real.pi * ((22 : ℝ) / 1000) ^ 2 / 4 * 420 * 1e6 * 0.75)
        * ((750 : ℝ) / 1000 / 2) / 2.0
        < Real.pi / 32 * (((628 : ℝ) / 1000) ^ 4
          - ((628 : ℝ) / 1000 - 2 * ((5 : ℝ) / 1000)) ^ 4) / ((628 : ℝ) / 1000)
          * 355 * 1e6 / 2.0 := by nlinarith [Real.pi_pos]
    have haf : (0 : ℝ) < (16 : ℝ) / 2
        * (Real.pi * ((22 : ℝ) / 1000) ^ 2 / 4 * 420 * 1e6 * 0.75)
        * ((750 : ℝ) / 1000 / 2) / 2.0 := by positivity
    have hmin : ¬ (min (Real.pi / 32 * (((628 : ℝ) / 1000) ^ 4
          - ((628 : ℝ) / 1000 - 2 * ((5 : ℝ) / 1000)) ^ 4) / ((628 : ℝ) / 1000)
          * 355 * 1e6 / 2.0)
        ((16 : ℝ) / 2 * (Real.pi * ((22 : ℝ) / 1000) ^ 2 / 4 * 420 * 1e6 * 0.75)
          * ((750 : ℝ) / 1000 / 2) / 2.0) = 0) :=
      ne_of_gt (lt_min hap haf)
    simp only [analyze_monopole, calculate_dead_load, calculate_moment_capacity,
      hfy, calculate_foundation_capacity, calculate_load_combinations,
      hd, ht, hbcd, hbd, hbg, hn, if_neg hne, if_pos hlt, if_neg hmin, Except.map]
  · have hlt : (4 : ℝ) / 2
        * (Real.pi * ((22 : ℝ) / 1000) ^ 2 / 4 * 420 * 1e6 * 0.75)
        * ((750 : ℝ) / 1000 / 2) / 2.0
        < Real.pi / 32 * (((628 : ℝ) / 1000) ^ 4
          - ((628 : ℝ) / 1000 - 2 * ((5 : ℝ) / 1000)) ^ 4) / ((628 : ℝ) / 1000)
          * 355 * 1e6 / 2.0 := by nlinarith [Real.pi_pos]
    have haf : (0 : ℝ) < (4 : ℝ) / 2
        * (Real.pi * ((22 : ℝ) / 1000) ^ 2 / 4 * 420 * 1e6 * 0.75)
        * ((750 : ℝ) / 1000 / 2) / 2.0 := by positivity
    have hmin : ¬ (min (Real.pi / 32 * (((628 : ℝ) / 1000) ^ 4
          - ((628 : ℝ) / 1000 - 2 * ((5 : ℝ) / 1000)) ^ 4) / ((628 : ℝ) / 1000)
          * 355 * 1e6 / 2.0)
        ((4 : ℝ) / 2 * (Real.pi * ((22 : ℝ) / 1000) ^ 2 / 4 * 420 * 1e6 * 0.75)
          * ((750 : ℝ) / 1000 / 2) / 2.0) = 0) :=
      ne_of_gt (lt_min hap haf)
    simp only [analyze_monopole, calculate_dead_load, calculate_moment_capacity,
      hfy, calculate_foundation_capacity, calculate_load_combinations,
      hd, ht, hbcd, hbd, hbg, hn, if_neg hne, if_pos hlt, if_neg hmin, Except.map]

/-! ## Claim theorems -/

/-- C1 (amended): in `analyze_monopole` with a single-section pole of base
diameter 628 mm, thickness 5 mm, steel grade S355, and foundation params
with bolt-circle diameter 750 mm, bolt diameter 22 mm and bolt grade
420 MPa, the returned `governing_element` is FOUNDATION with
`number_of_bolts = 16`, and changing `number_of_bolts` to 4 (all else
fixed) keeps `governing_element` = FOUNDATION: the foundation allowable
moment (≈ 57172.5·π N·m at 16 bolts) is below the pole allowable moment
(≈ 85436·π N·m) in both configurations. -/
theorem C1_governing_element (s : Section) (applied v : ℝ)
    (exposure : String) (fp : FoundationParams) (ps : List CrownPlatform)
    (hd : s.diameter_bottom = 628) (ht : s.thickness = 5)
    (hbcd : fp.bolt_circle_diameter = 750) (hbd : fp.bolt_diameter = 22)
    (hbg : fp.bolt_grade = 420)
    (hn : fp.number_of_bolts = 16 ∨ fp.number_of_bolts = 4) :
    (analyze_monopole [s] applied v exposure "S355" (some fp) ps).map
      (fun r => r.governing_element) = Except.ok "FOUNDATION" :=
  analyze_628_foundation s applied v exposure fp ps hd ht hbcd hbd hbg hn

/-- C1 counterexample: with the repository's own 16-bolt foundation
configuration the governing element is FOUNDATION, not POLE as the claim
states. -/
theorem C1_counterexample :
    (analyze_monopole [mainSection] 0 0 "C" "S355"
        (some foundationParameters) []).map (fun r => r.governing_element)
      = Except.ok "FOUNDATION"
    ∧ (analyze_monopole [mainSection] 0 0 "C" "S355"
        (some foundationParameters) []).map (fun r => r.governing_element)
      ≠ Except.ok "POLE" := by
  have h := analyze_628_foundation mainSection 0 0 "C" foundationParameters []
    rfl rfl rfl rfl rfl (Or.inl rfl)
  refine ⟨h, ?_⟩
  rw [h]
  simp

/-- C1 witness: instantiation at the 4-bolt configuration. -/
theorem C1_governing_element_witness :
    (analyze_monopole [mainSection] 0 0 "C" "S355"
        (some foundationParameters4) []).map (fun r => r.governing_element)
      = Except.ok "FOUNDATION" :=
  C1_governing_element mainSection 0 0 "C" foundationParameters4 []
    rfl rfl rfl rfl rfl (Or.inr rfl)

/-- C4: for every height `h ≥ 0` and every exposure string, `calculate_kz`
returns the Kz value of the first breakpoint (in table order) whose
threshold strictly exceeds `h`, and otherwise the power law
`base * (h / first_threshold) ^ (2 / alpha)`; for exposure C at `h = 4.6`
it returns `0.90`, not `0.85`; an unrecognized exposure uses category C's
table. -/
theorem C4_kz_first_breakpoint (h : ℝ) (exposure : String) (h0 : 0 ≤ h) :
    (calculate_kz h exposure
      = (((exposureParams exposure).breakpoints.find?
            (fun bp => decide (h < bp.1))).map (fun bp => bp.2)).getD
          ((exposureParams exposure).base
            * (h / ((exposureParams exposure).breakpoints.headD (0, 0)).1)
              ^ ((2 : ℝ) / (exposureParams exposure).alpha)))
    ∧ calculate_kz 4.6 "C" = 0.90
    ∧ (exposure ≠ "B" → exposure ≠ "C" → exposure ≠ "D" →
        calculate_kz h exposure = calculate_kz h "C") := by
  refine ⟨?_, ?_, ?_⟩
  · simp only [calculate_kz]
    rw [scanBreakpoints_eq_find]
  · rw [calculate_kz_C]
    norm_num
  · intro hB hC hD
    have h1 : exposureParams exposure = exposureC := by
      unfold exposureParams
      rw [if_neg hC, if_neg hB, if_neg hD]
    have h2 : exposureParams "C" = exposureC := by
      unfold exposureParams
      rw [if_pos rfl]
    simp only [calculate_kz, h1, h2]

/-- C4 witness: instantiation at `h = 0` with the unrecognized exposure
string "Q". -/
theorem C4_kz_first_breakpoint_witness :
    calculate_kz 4.6 "C" = 0.90 ∧ calculate_kz 0 "Q" = calculate_kz 0 "C" := by
  have h := C4_kz_first_breakpoint 0 "Q" (by norm_num)
  exact ⟨h.2.1, h.2.2 (by decide) (by decide) (by decide)⟩

set_option maxHeartbeats 1000000 in
/-- C6: for exposure category C, `calculate_kz` is non-decreasing in height
over all heights `0 ≤ h1 ≤ h2`, including across the boundary from the last
breakpoint into the power-law regime. -/
theorem C6_kz_monotone_C (h1 h2 : ℝ) (h0 : 0 ≤ h1) (h12 : h1 ≤ h2) :
    calculate_kz h1 "C" ≤ calculate_kz h2 "C" := by
  rw [calculate_kz_C, calculate_kz_C]
  split_ifs <;>
    first
      | (exfalso; linarith)
      | (norm_num; done)
      | (exact powC_mono (by linarith) h12)
      | (exact le_trans (by norm_num) (powC_lb (by linarith)))

/-- C6 witness: instantiation at `h1 = 3`, `h2 = 20` (the second height in
the power-law regime). -/
theorem C6_kz_monotone_C_witness :
    (0 : ℝ) ≤ 3 ∧ (3 : ℝ) ≤ 20 ∧ calculate_kz 3 "C" ≤ calculate_kz 20 "C" :=
  ⟨by norm_num, by norm_num, C6_kz_monotone_C 3 20 (by norm_num) (by norm_num)⟩

/-- C5: for every wind moment, applied moment and nonzero governing moment,
`calculate_load_combinations` produces exactly the eight named combinations
with the specified demand moments; each utilization is `demand / governing`;
`max_utilization` is the maximum of the eight utilizations; and
`governing_combo` is the combination attaining that maximum, ties broken by
the first occurrence in table order (the first pair of the utilization list
whose value equals the maximum carries the governing name). -/
theorem C5_load_combinations (w a g : ℝ) (hg : g ≠ 0) :
    ∀ cs us gc mu,
      calculate_load_combinations w a g = Except.ok (cs, us, gc, mu) →
      cs = [("LRFD_1.4D", 0),
            ("LRFD_1.2D+1.6W", a + 1.6 * w),
            ("LRFD_1.2D+1.0W", a + 1.0 * w),
            ("LRFD_0.9D+1.6W", a + 1.6 * w),
            ("ASD_D", 0),
            ("ASD_D+W", a + w),
            ("ASD_D+0.75W", a + 0.75 * w),
            ("ASD_0.6D+0.6W", a + 0.6 * w)]
      ∧ us = cs.map (fun p => (p.1, p.2 / g))
      ∧ mu ∈ us.map (fun p => p.2)
      ∧ (∀ x ∈ us.map (fun p => p.2), x ≤ mu)
      ∧ us.find? (fun p => decide (p.2 = mu)) = some (gc, mu) := by
  intro cs us gc mu h
  simp only [calculate_load_combinations, if_neg hg, Except.ok.injEq,
    Prod.mk.injEq] at h
  obtain ⟨h1, h2, h3, h4⟩ := h
  subst h1
  subst h2
  subst h3
  subst h4
  refine ⟨rfl, rfl, ?_, ?_, ?_⟩
  · exact pyMaxVal_mem_cons _ _
  · intro x hx
    exact pyMaxVal_ub hx
  · exact find_argmax_pack _ _

/-- C5 witness: instantiation at wind moment 1, applied moment 0, governing
moment 1; the maximal utilization `1.6` is attained by both
`LRFD_1.2D+1.6W` and `LRFD_0.9D+1.6W`, and the first of them in table order
is the governing combination. -/
theorem C5_load_combinations_witness :
    ([("LRFD_1.4D", (0 : ℝ)), ("LRFD_1.2D+1.6W", 1.6), ("LRFD_1.2D+1.0W", 1),
      ("LRFD_0.9D+1.6W", 1.6), ("ASD_D", 0), ("ASD_D+W", 1),
      ("ASD_D+0.75W", 0.75), ("ASD_0.6D+0.6W", 0.6)]).find?
        (fun p => decide (p.2 = 1.6))
      = some ("LRFD_1.2D+1.6W", 1.6) :=
  (C5_load_combinations 1 0 1 (by norm_num)
    [("LRFD_1.4D", (0 : ℝ)), ("LRFD_1.2D+1.6W", 1.6), ("LRFD_1.2D+1.0W", 1),
     ("LRFD_0.9D+1.6W", 1.6), ("ASD_D", 0), ("ASD_D+W", 1),
     ("ASD_D+0.75W", 0.75), ("ASD_0.6D+0.6W", 0.6)]
    [("LRFD_1.4D", (0 : ℝ)), ("LRFD_1.2D+1.6W", 1.6), ("LRFD_1.2D+1.0W", 1),
     ("LRFD_0.9D+1.6W", 1.6), ("ASD_D", 0), ("ASD_D+W", 1),
     ("ASD_D+0.75W", 0.75), ("ASD_0.6D+0.6W", 0.6)]
    "LRFD_1.2D+1.6W" 1.6
    (by norm_num [calculate_load_combinations, loadCombinationTable, pyMaxVal,
      pyArgmax, List.foldl, max_def])).2.2.2.2

/-- C9: the status field of an `analyze_monopole` result is determined
solely by its `max_utilization` field: FAIL above 1.0, CRITICAL on
(0.9, 1.0], WARNING on (0.8, 0.9], GOOD on (0.6, 0.8] and CONSERVATIVE at
or below 0.6. -/
theorem C9_status_classification (sections : List Section) (applied v : ℝ)
    (exposure grade : String) (fp : Option FoundationParams)
    (ps : List CrownPlatform) (s : String) (mu : ℝ)
    (h : (analyze_monopole sections applied v exposure grade fp ps).map
      (fun r => (r.status, r.max_utilization)) = Except.ok (s, mu)) :
    (1.0 < mu → s = "FAIL - Structure is overstressed!")
    ∧ (0.9 < mu ∧ mu ≤ 1.0 → s = "CRITICAL - Very high utilization")
    ∧ (0.8 < mu ∧ mu ≤ 0.9 → s = "WARNING - High utilization")
    ∧ (0.6 < mu ∧ mu ≤ 0.8 → s = "GOOD - Adequately designed")
    ∧ (mu ≤ 0.6 → s = "CONSERVATIVE - Significant reserve capacity") := by
  rcases hres : analyze_monopole sections applied v exposure grade fp ps with e | r
  · rw [hres] at h
    exact Except.noConfusion h
  · rw [hres] at h
    simp only [Except.map] at h
    injection h with h2
    rw [Prod.mk.injEq] at h2
    obtain ⟨hs, hmu⟩ := h2
    have hstat := analyze_status hres
    rw [hmu] at hstat
    rw [← hs, hstat]
    refine ⟨?_, ?_, ?_, ?_, ?_⟩
    · intro hgt
      unfold statusOf
      rw [if_pos hgt]
    · rintro ⟨hl, hu⟩
      unfold statusOf
      rw [if_neg (not_lt.mpr hu), if_pos hl]
    · rintro ⟨hl, hu⟩
      unfold statusOf
      rw [if_neg (not_lt.mpr (by linarith)), if_neg (not_lt.mpr hu), if_pos hl]
    · rintro ⟨hl, hu⟩
      unfold statusOf
      rw [if_neg (not_lt.mpr (by linarith)), if_neg (not_lt.mpr (by linarith)),
        if_neg (not_lt.mpr hu), if_pos hl]
    · intro hu
      unfold statusOf
      rw [if_neg (not_lt.mpr (by linarith)), if_neg (not_lt.mpr (by linarith)),
        if_neg (not_lt.mpr (by linarith)), if_neg (not_lt.mpr hu)]

/-- C9 witness: the repository's single 15 m section with zero wind and zero
applied load yields `max_utilization = 0`, classified CONSERVATIVE. -/
theorem C9_status_classification_witness :
    (0 : ℝ) ≤ 0.6
    ∧ "CONSERVATIVE - Significant reserve capacity"
        = "CONSERVATIVE - Significant reserve capacity" :=
  ⟨by norm_num,
    (C9_status_classification [mainSection] 0 0 "C" "S355" none []
      "CONSERVATIVE - Significant reserve capacity" 0
      (analyze_zero_wind_status mainSection "C" "S355"
        (by norm_num [mainSection])
        (by norm_num [mainSection, yieldStrength]; positivity))).2.2.2.2
      (by norm_num)⟩

/-- C7: for every sections list, crown platforms and exposure category,
`calculate_wind_load` with `wind_speed_ms = 0` returns force 0 and
moment 0. -/
theorem C7_wind_load_zero_speed (sections : List Section) (exposure : String)
    (crown_platforms : List CrownPlatform) :
    calculate_wind_load sections 0 exposure crown_platforms = (0, 0) := by
  simp [calculate_wind_load, sectionWindLoads_zero, platformWindLoads_zero]

/-- C8: for every sections list, crown platforms, exposure and wind speed
`v`, `calculate_wind_load` at wind speed `2 * v` returns exactly 4 times the
force and 4 times the moment it returns at wind speed `v`. -/
theorem C8_wind_load_quadratic (sections : List Section) (v : ℝ)
    (exposure : String) (crown_platforms : List CrownPlatform) :
    calculate_wind_load sections (2 * v) exposure crown_platforms
      = (4 * (calculate_wind_load sections v exposure crown_platforms).1,
         4 * (calculate_wind_load sections v exposure crown_platforms).2) := by
  simp only [calculate_wind_load, sectionWindLoads_double, platformWindLoads_double]
  rw [Prod.mk.injEq]
  constructor <;> ring

/-- C10: `analyze_monopole` on the empty sections list never returns an
`AnalysisResult`: it fails with the index error raised when the base section
`sections[0]` is read. -/
theorem C10_empty_sections (applied_load_kg wind_speed_ms : ℝ)
    (exposure steel_grade : String) (foundation_params : Option FoundationParams)
    (crown_platforms : List CrownPlatform) :
    analyze_monopole [] applied_load_kg wind_speed_ms exposure steel_grade
      foundation_params crown_platforms
      = Except.error AnalysisError.indexError := by
  rfl

/-- C2 (amended): `calculate_dead_load` performs no geometry validation —
for every sections list, including ones whose wall thickness leaves a
non-positive inner bore, it returns pole and crown weights and never an
`InvalidSectionGeometry` error. -/
theorem C2_dead_load_total (sections : List Section)
    (crown_platforms : List CrownPlatform) :
    ∃ pole_weight crown_weight, calculate_dead_load sections crown_platforms
      = Except.ok (pole_weight, crown_weight) :=
  ⟨poleWeight sections, crownWeight crown_platforms, rfl⟩

/-- C2 counterexample: `degenerateSection` has inner radius
`d_avg/2 - thickness = 0 ≤ 0`, yet `calculate_dead_load` returns a weight
(`157·π/8 kg`) instead of failing with `InvalidSectionGeometry`. -/
theorem C2_counterexample :
    ((degenerateSection.diameter_top + degenerateSection.diameter_bottom) / 2) / 2
        - degenerateSection.thickness ≤ 0
    ∧ calculate_dead_load [degenerateSection] []
        = Except.ok (157 * Real.pi / 8, 0)
    ∧ calculate_dead_load [degenerateSection] []
        ≠ Except.error AnalysisError.invalidSectionGeometry := by
  refine ⟨by norm_num [degenerateSection], ?_, by simp [calculate_dead_load]⟩
  simp only [calculate_dead_load, poleWeight, crownWeight, sectionWeight,
    degenerateSection, steel_density, List.map_cons, List.map_nil, List.sum_cons,
    List.sum_nil, Except.ok.injEq, Prod.mk.injEq]
  constructor <;> ring_nf

/-- C3 (amended): `calculate_foundation_capacity` performs no parameter
validation — for every foundation-params record, including ones with a
non-positive bolt count, bolt diameter or bolt-circle diameter, it returns a
capacity pair and never an `InvalidFoundationParams` error. -/
theorem C3_foundation_capacity_total (fp : FoundationParams) :
    ∃ allowable_moment bolt_capacity, calculate_foundation_capacity fp
      = Except.ok (allowable_moment, bolt_capacity) :=
  ⟨_, _, rfl⟩

/-- C3 counterexample: `zeroBoltParams` has `number_of_bolts = 0 ≤ 0`, yet
`calculate_foundation_capacity` returns a capacity pair (allowable moment 0,
bolt tensile capacity `38115·π N`) instead of failing with
`InvalidFoundationParams`. -/
theorem C3_counterexample :
    zeroBoltParams.number_of_bolts ≤ 0
    ∧ calculate_foundation_capacity zeroBoltParams
        = Except.ok (0, 38115 * Real.pi)
    ∧ calculate_foundation_capacity zeroBoltParams
        ≠ Except.error AnalysisError.invalidFoundationParams := by
  refine ⟨by norm_num [zeroBoltParams], ?_, by simp [calculate_foundation_capacity]⟩
  simp only [calculate_foundation_capacity, zeroBoltParams, Except.ok.injEq,
    Prod.mk.injEq]
  constructor <;> ring_nf

end TeleTwin
